import Mathlib

/-!
Verification of the FastPlanner weather proxy (anvil-weather-proxy).

The definitions below are a shallow embedding of the repository's Python
sources:

* `rate_limit_check`, `make_proxy_request`, `proxy_noaa_weather_main`,
  `get_weather_stats` embed `main.py`;
* `noaa_proxy_endpoint_deliver` embeds the success-path response-delivery
  step of `client_code.py`, and `noaa_proxy_endpoint` the whole endpoint
  including its exception branch;
* `proxy_noaa_weather_fixed`, `proxy_aviation_weather_fixed`,
  `proxy_buoy_weather_fixed`, `proxy_lightning_weather_fixed` embed the
  HTTP endpoints of `server_code_fixed.py`;
* `proxy_lightning_weather_correct` embeds the lightning endpoint of
  `server_code_correct.py`.

Network effects are represented by explicit outcome parameters
(`RequestsOutcome` for `requests.get`, `AnvilOutcome` for
`anvil.http.request`), and timestamps (`time.time()` floats in the
source) are modelled as integers: the rate limiter only subtracts and
compares timestamps, so any linearly ordered clock carries its logic.
-/

namespace WeatherProxy

/-- `subList n l` decides whether `n` occurs as a contiguous sublist of `l`. -/
def subList (n : List Char) : List Char → Bool
  | [] => n.isEmpty
  | c :: rest => n.isPrefixOf (c :: rest) || subList n rest

/-- Python `needle in hay` on strings, as used by the source
(`'?' in request_url`, `'wms' in request_url.lower()`). -/
def strContains (hay needle : String) : Bool :=
  subList needle.toList hay.toList

/-- Python `s.startswith(pre)`. -/
def strStartsWith (s pre : String) : Bool :=
  pre.toList.isPrefixOf s.toList

/-- Python `s.lower()` (the URLs involved are ASCII). -/
def strLower (s : String) : String :=
  String.mk (s.data.map Char.toLower)

/-- Python `kwargs.get(k, '')` over an insertion-ordered dict, modelled as
an association list. -/
def getParam (kwargs : List (String × String)) (k : String) : String :=
  ((kwargs.find? (fun kv => kv.1 == k)).map Prod.snd).getD ""

/-- Python `headers.get(k)` returning `none` when absent. -/
def headerGet (hs : List (String × String)) (k : String) : Option String :=
  (hs.find? (fun kv => kv.1 == k)).map Prod.snd

/-! ### Rate limiter state (`main.py`, `request_cache`) -/

/-- The global `request_cache` dict of `main.py`: per-client lists of request
timestamps.  A Python dict is modelled as a total function together with the
list of keys that are present (`keys` tracks membership and `len(dict)`). -/
structure RequestCache where
  entries : String → List Int
  keys : List String

/-- The initial, empty `request_cache`. -/
def emptyCache : RequestCache := ⟨fun _ => [], []⟩

/-- Python `request_cache.get(client_ip, [])`. -/
def cacheGet (c : RequestCache) (k : String) : List Int :=
  if k ∈ c.keys then c.entries k else []

/-- Python `request_cache[client_ip] = v`. -/
def cacheSet (c : RequestCache) (k : String) (v : List Int) : RequestCache :=
  { entries := fun q => if q = k then v else c.entries q,
    keys := if k ∈ c.keys then c.keys else c.keys ++ [k] }

/-- `RATE_LIMIT_WINDOW = 900` (main.py line 18). -/
def RATE_LIMIT_WINDOW : Int := 900

/-- `RATE_LIMIT_MAX = 1000` (main.py line 19). -/
def RATE_LIMIT_MAX : Nat := 1000

/-- `rate_limit_check(client_ip)` of `main.py` (lines 21-40), with the
global `request_cache` and the current time passed explicitly.  Returns the
updated cache and the accept/reject boolean.  Step by step: the client's
entry is overwritten with the pruned list (keeping `t` with
`now - t < RATE_LIMIT_WINDOW`); if the re-read list has length
`>= RATE_LIMIT_MAX` the call returns `False`; otherwise the (dead in
practice) missing-key guard runs and `now` is appended. -/
def rate_limit_check (c : RequestCache) (client_ip : String) (now : Int) :
    RequestCache × Bool :=
  let pruned := (cacheGet c client_ip).filter
    (fun req_time => now - req_time < RATE_LIMIT_WINDOW)
  let c1 := cacheSet c client_ip pruned
  if RATE_LIMIT_MAX ≤ (cacheGet c1 client_ip).length then
    (c1, false)
  else
    let c2 := if client_ip ∈ c1.keys then c1 else cacheSet c1 client_ip []
    (cacheSet c2 client_ip (cacheGet c2 client_ip ++ [now]), true)

/-- The statistics fields of `get_weather_stats()` (main.py lines 196-206)
that depend on the rate-limiter state. -/
structure WeatherStats where
  active_clients : Nat
  total_requests : Nat

/-- `get_weather_stats()` of `main.py`: `active_clients = len(request_cache)`,
`total_requests = sum(len(v) for v in request_cache.values())`. -/
def get_weather_stats (c : RequestCache) : WeatherStats :=
  ⟨c.keys.length, (c.keys.map (fun k => (c.entries k).length)).sum⟩

/-! ### Forwarder (`main.py`, `make_proxy_request`) -/

/-- The result dict built by `make_proxy_request` and the proxy callables of
`main.py`: keys `status`, `content`, `headers`, `success`. -/
structure ProxyResult where
  status : Nat
  content : String
  headers : List (String × String)
  success : Bool

/-- Outcome of the `requests.get` call inside `make_proxy_request`:
a response arrived within the timeout (any status code), the call raised
`requests.exceptions.Timeout`, or it raised some other
`requests.exceptions.RequestException` with message `msg`. -/
inductive RequestsOutcome where
  | ok (status : Nat) (text : String) (headers : List (String × String))
  | timeout
  | requestError (msg : String)

/-- `make_proxy_request(target_url, timeout=30)` of `main.py` (lines 42-84),
with the network outcome passed explicitly.  On `ok` the upstream status,
body and headers are returned with `success = True`; on `Timeout` a 408
JSON envelope; on any other `RequestException` a 500 JSON envelope with the
exception message. -/
def make_proxy_request (target_url : String) (o : RequestsOutcome) :
    ProxyResult :=
  match o with
  | .ok s t h => ⟨s, t, h, true⟩
  | .timeout =>
      ⟨408, "\x7b\"error\": \"Request timeout\", \"service\": \"weather\"\x7d",
        [("Content-Type", "application/json")], false⟩
  | .requestError m =>
      ⟨500, "\x7b\"error\": \"" ++ m ++ "\", \"service\": \"weather\"\x7d",
        [("Content-Type", "application/json")], false⟩

/-- `proxy_noaa_weather(path, client_ip)` of `main.py` (lines 96-119):
rate-limit check first (mutating the cache either way); on rejection the
429 envelope, otherwise `make_proxy_request` on
`https://nowcoast.noaa.gov/{path}`. -/
def proxy_noaa_weather_main (c : RequestCache) (path : String)
    (client_ip : String) (now : Int) (o : RequestsOutcome) :
    RequestCache × ProxyResult :=
  let r := rate_limit_check c client_ip now
  if r.2 = false then
    (r.1, ⟨429, "\x7b\"error\": \"Rate limit exceeded\", \"service\": \"NOAA\"\x7d",
      [("Content-Type", "application/json")], false⟩)
  else
    (r.1, make_proxy_request ("https://nowcoast.noaa.gov/" ++ path) o)

/-- Iterated `rate_limit_check` calls for one client: the cache after the
whole sequence and the list of accept/reject results, in order. -/
def runChecks (c : RequestCache) (client_ip : String) :
    List Int → RequestCache × List Bool
  | [] => (c, [])
  | t :: ts =>
      let r := rate_limit_check c client_ip t
      let rest := runChecks r.1 client_ip ts
      (rest.1, r.2 :: rest.2)

/-! ### Client-side delivery (`client_code.py`, `noaa_proxy_endpoint`) -/

/-- An `HttpResponse` as constructed by the endpoint code:
status, body, header list. -/
structure HttpResponse where
  status : Nat
  body : String
  headers : List (String × String)

/-- The response-construction step of `noaa_proxy_endpoint` in
`client_code.py` (lines 42-53): the server-call result's `content` and
`status` are delivered unchanged, with the result's Content-Type (default
`application/json`) and the CORS headers attached. -/
def noaa_proxy_endpoint_deliver (result : ProxyResult) : HttpResponse :=
  ⟨result.status, result.content,
    [("Content-Type", (headerGet result.headers "Content-Type").getD "application/json"),
     ("Access-Control-Allow-Origin", "*"),
     ("Access-Control-Allow-Methods", "GET, POST, OPTIONS"),
     ("Access-Control-Allow-Headers", "Content-Type, Authorization")]⟩

/-- Outcome of the `anvil.server.call('proxy_noaa_weather', ...)` inside
`noaa_proxy_endpoint`: the server call returned a result dict, or something
in the `try` block raised an exception with message `msg`. -/
inductive ServerCallOutcome where
  | returned (r : ProxyResult)
  | raised (msg : String)

/-- The whole `noaa_proxy_endpoint` of `client_code.py` (lines 32-60): on a
returned server-call result, the delivery step above (CORS headers
attached); on an exception, a 500 `HttpResponse` with the JSON error body
and ONLY a Content-Type header — the `except` branch attaches no CORS
header. -/
def noaa_proxy_endpoint (o : ServerCallOutcome) : HttpResponse :=
  match o with
  | .returned r => noaa_proxy_endpoint_deliver r
  | .raised msg =>
      ⟨500, "\x7b\"error\": \"" ++ msg ++ "\", \"service\": \"NOAA\"\x7d",
        [("Content-Type", "application/json")]⟩

/-! ### HTTP endpoints of `server_code_fixed.py` and `server_code_correct.py`

Each handler is a function of the inbound `kwargs` (insertion-ordered query
parameters) and of the outcome of its single `anvil.http.request` call.
It returns the `HttpResponse` handed back to the external caller together
with the outbound URL it requested (`none` when the handler returns before
making any outbound request) — the URL is returned as an extra observation
so that theorems can speak about it. -/

/-- Outcome of `anvil.http.request(request_url, ...)`: either a response
body was delivered to the handler (`status` records the upstream status
code, which the handler code never reads), or the call raised an exception
with message `msg` (caught by the handler's `except` clause). -/
inductive AnvilOutcome where
  | delivered (status : Nat) (body : String)
  | raised (msg : String)

/-- The CORS/Content-Type header block used by every success response of
`server_code_fixed.py`. -/
def fixedHeaders (ct : String) : List (String × String) :=
  [("Content-Type", ct),
   ("Access-Control-Allow-Origin", "*"),
   ("Access-Control-Allow-Methods", "GET, POST, OPTIONS"),
   ("Access-Control-Allow-Headers", "Content-Type, Authorization, X-Requested-With")]

/-- The header block of `server_code_correct.py` success responses. -/
def correctHeaders (ct : String) : List (String × String) :=
  [("Content-Type", ct),
   ("Access-Control-Allow-Origin", "http://localhost:8080"),
   ("Cache-Control", "no-cache")]

/-- `if not service_path.startswith('/'): service_path = '/' + service_path`. -/
def normalizeServicePath (p : String) : String :=
  if strStartsWith p "/" then p else "/" ++ p

/-- `request_url += ('&' if '?' in request_url else '?') + '&'.join(query_params)`,
guarded by `if query_params:`. -/
def appendQueryParams (u : String) (qp : List String) : String :=
  if qp = [] then u
  else u ++ (if strContains u "?" then "&" else "?") ++ "&".intercalate qp

/-- The `f"{key}={value}"` pairs built from `kwargs.items()` skipping the
`path` key (NOAA/aviation/correct handlers). -/
def queryPairsNoPath (kwargs : List (String × String)) : List String :=
  (kwargs.filter (fun kv => ¬ kv.1 = "path")).map (fun kv => kv.1 ++ "=" ++ kv.2)

/-- `proxy_noaa_weather(**kwargs)` of `server_code_fixed.py` (lines 37-86):
missing/empty `path` → bare 400; otherwise normalize the path, append every
non-`path` query parameter, request the URL; on delivery a 200 response with
the body and a content type inferred from the URL (wms/getmap → png,
xml/capabilities → xml, else json) plus CORS headers; on an exception a bare
500 with the message. -/
def proxy_noaa_weather_fixed (kwargs : List (String × String))
    (net : AnvilOutcome) : HttpResponse × Option String :=
  let service_path := getParam kwargs "path"
  if service_path = "" then
    (⟨400, "Missing 'path' parameter", []⟩, none)
  else
    let request_url0 := "https://nowcoast.noaa.gov" ++ normalizeServicePath service_path
    let request_url := appendQueryParams request_url0 (queryPairsNoPath kwargs)
    match net with
    | .raised msg => (⟨500, msg, []⟩, some request_url)
    | .delivered _ body =>
        let lower := strLower request_url
        let content_type :=
          if strContains lower "wms" || strContains lower "getmap" then "image/png"
          else if strContains lower "xml" || strContains lower "capabilities" then
            "application/xml"
          else "application/json"
        (⟨200, body, fixedHeaders content_type⟩, some request_url)

/-- `proxy_aviation_weather(**kwargs)` of `server_code_fixed.py`
(lines 88-131): like the NOAA handler but against
`https://aviationweather.gov` and with a constant `application/json`
content type. -/
def proxy_aviation_weather_fixed (kwargs : List (String × String))
    (net : AnvilOutcome) : HttpResponse × Option String :=
  let service_path := getParam kwargs "path"
  if service_path = "" then
    (⟨400, "Missing 'path' parameter", []⟩, none)
  else
    let request_url0 := "https://aviationweather.gov" ++ normalizeServicePath service_path
    let request_url := appendQueryParams request_url0 (queryPairsNoPath kwargs)
    match net with
    | .raised msg => (⟨500, msg, []⟩, some request_url)
    | .delivered _ body =>
        (⟨200, body, fixedHeaders "application/json"⟩, some request_url)

/-- `proxy_buoy_weather(**kwargs)` of `server_code_fixed.py` (lines
133-167): path required and normalized, but — unlike the NOAA and aviation
handlers — no query parameters are appended to the outbound URL. -/
def proxy_buoy_weather_fixed (kwargs : List (String × String))
    (net : AnvilOutcome) : HttpResponse × Option String :=
  let service_path := getParam kwargs "path"
  if service_path = "" then
    (⟨400, "Missing 'path' parameter", []⟩, none)
  else
    let request_url := "https://www.ndbc.noaa.gov" ++ normalizeServicePath service_path
    match net with
    | .raised msg => (⟨500, msg, []⟩, some request_url)
    | .delivered _ body =>
        (⟨200, body, fixedHeaders "text/plain"⟩, some request_url)

/-- The outbound URL built by `proxy_lightning_weather` of
`server_code_fixed.py`: the constant geoserver suffix URL with ALL inbound
parameters (including any `path` key) appended after `?`. -/
def lightningFixedUrl (kwargs : List (String × String)) : String :=
  let base := "https://nowcoast.noaa.gov/geoserver/observations/lightning_detection/ows"
  let qp := kwargs.map (fun kv => kv.1 ++ "=" ++ kv.2)
  if qp = [] then base else base ++ "?" ++ "&".intercalate qp

/-- `proxy_lightning_weather(**kwargs)` of `server_code_fixed.py` (lines
169-208): no `path` requirement; requests `lightningFixedUrl kwargs`; on
delivery a 200 response whose content type is `image/png` when the URL
(lower-cased) contains `getmap` and `application/xml` otherwise, plus CORS
headers; on an exception a bare 500. -/
def proxy_lightning_weather_fixed (kwargs : List (String × String))
    (net : AnvilOutcome) : HttpResponse × Option String :=
  let request_url := lightningFixedUrl kwargs
  match net with
  | .raised msg => (⟨500, msg, []⟩, some request_url)
  | .delivered _ body =>
      let content_type :=
        if strContains (strLower request_url) "getmap" then "image/png"
        else "application/xml"
      (⟨200, body, fixedHeaders content_type⟩, some request_url)

/-- `proxy_lightning_weather(**kwargs)` of `server_code_correct.py` (lines
202-250): unlike the `server_code_fixed.py` variant, this one first demands
a non-empty `path` parameter (returning a bare 400 without it), then ignores
that path and requests the constant suffix URL with the non-`path`
parameters appended. -/
def proxy_lightning_weather_correct (kwargs : List (String × String))
    (net : AnvilOutcome) : HttpResponse × Option String :=
  let service_path := getParam kwargs "path"
  if service_path = "" then
    (⟨400, "Missing 'path' parameter", []⟩, none)
  else
    let base := "https://nowcoast.noaa.gov/geoserver/observations/lightning_detection/ows"
    let qp := queryPairsNoPath kwargs
    let request_url := if qp = [] then base else base ++ "?" ++ "&".intercalate qp
    match net with
    | .raised msg => (⟨500, msg, []⟩, some request_url)
    | .delivered _ body =>
        let content_type :=
          if strContains (strLower request_url) "getmap" then "image/png"
          else "application/xml"
        (⟨200, body, correctHeaders content_type⟩, some request_url)

/-- A response carries the CORS allow-origin header. -/
def hasCORS (r : HttpResponse) : Bool :=
  r.headers.any (fun kv => kv.1 == "Access-Control-Allow-Origin")

/-- The prune step as claim C2 words it: remove exactly the timestamps
strictly older than `now - window_seconds`, keeping every `t` with
`now - RATE_LIMIT_WINDOW ≤ t`.  This definition follows the claim's words,
to be compared against the prune inside `rate_limit_check`. -/
def claimPrune (w : List Int) (now : Int) : List Int :=
  w.filter (fun t => now - RATE_LIMIT_WINDOW ≤ t)

/-! ### Rate-limiter lemmas -/

theorem mem_keys_cacheSet (c : RequestCache) (k : String) (v : List Int) :
    k ∈ (cacheSet c k v).keys := by
  unfold cacheSet
  by_cases h : k ∈ c.keys
  · simp [h]
  · simp [h]

theorem cacheGet_cacheSet_self (c : RequestCache) (k : String) (v : List Int) :
    cacheGet (cacheSet c k v) k = v := by
  unfold cacheGet
  rw [if_pos (mem_keys_cacheSet c k v)]
  unfold cacheSet
  simp

/-- Closed form of `rate_limit_check`: the pruned list is written back, and
the accept branch appends `now` to it. -/
theorem rate_limit_check_eq (c : RequestCache) (ip : String) (now : Int) :
    rate_limit_check c ip now =
      (let pruned := (cacheGet c ip).filter
          (fun req_time => now - req_time < RATE_LIMIT_WINDOW)
       if RATE_LIMIT_MAX ≤ pruned.length then (cacheSet c ip pruned, false)
       else (cacheSet (cacheSet c ip pruned) ip (pruned ++ [now]), true)) := by
  unfold rate_limit_check
  simp only [cacheGet_cacheSet_self, mem_keys_cacheSet, if_true]

/-- C2 (counterexample): with recorded window `[0]` and `now = 900`, the
claim's prune — remove only the timestamps strictly older than
`now - window_seconds` — keeps the timestamp `0` and so predicts that the
accepted call leaves the window `[0, 900]`; the code instead also removes
`0` (exactly `window_seconds` old) and leaves `[900]`. -/
theorem c2_prune_boundary_counterexample :
    claimPrune (cacheGet (cacheSet emptyCache "c" [0]) "c") 900 = [0] ∧
    (claimPrune (cacheGet (cacheSet emptyCache "c" [0]) "c") 900).length <
      RATE_LIMIT_MAX ∧
    (rate_limit_check (cacheSet emptyCache "c" [0]) "c" 900).2 = true ∧
    cacheGet (rate_limit_check (cacheSet emptyCache "c" [0]) "c" 900).1 "c" =
      [900] ∧
    cacheGet (rate_limit_check (cacheSet emptyCache "c" [0]) "c" 900).1 "c" ≠
      claimPrune (cacheGet (cacheSet emptyCache "c" [0]) "c") 900 ++ [900] := by
  decide

/-- C2 (amended): `rate_limit_check` first replaces the client's window by
the pruned window keeping exactly the timestamps `t` with
`now - t < RATE_LIMIT_WINDOW` — i.e. it removes every timestamp at least
`window_seconds` older than `now`, not only the strictly older ones; if the
pruned window's length is `≥ RATE_LIMIT_MAX` it returns `false` and the
key's window afterward equals exactly the pruned window; otherwise it
appends `now` to the pruned window and returns `true`. -/
theorem c2_rate_limit_check_spec (c : RequestCache) (ip : String) (now : Int) :
    (RATE_LIMIT_MAX ≤
        ((cacheGet c ip).filter (fun t => now - t < RATE_LIMIT_WINDOW)).length →
      (rate_limit_check c ip now).2 = false ∧
      cacheGet (rate_limit_check c ip now).1 ip =
        (cacheGet c ip).filter (fun t => now - t < RATE_LIMIT_WINDOW)) ∧
    (((cacheGet c ip).filter (fun t => now - t < RATE_LIMIT_WINDOW)).length <
        RATE_LIMIT_MAX →
      (rate_limit_check c ip now).2 = true ∧
      cacheGet (rate_limit_check c ip now).1 ip =
        (cacheGet c ip).filter (fun t => now - t < RATE_LIMIT_WINDOW) ++ [now]) := by
  simp only [rate_limit_check_eq]
  constructor
  · intro h
    rw [if_pos h]
    exact ⟨rfl, cacheGet_cacheSet_self ..⟩
  · intro h
    rw [if_neg (by omega)]
    exact ⟨rfl, cacheGet_cacheSet_self ..⟩

set_option maxRecDepth 100000 in
/-- C2 (witness): a first request from a fresh client at time `5` is
accepted and recorded; a client with a full window of 1000 fresh
timestamps is rejected and its window is left at the pruned 1000. -/
theorem c2_rate_limit_check_spec_witness :
    ((rate_limit_check emptyCache "a" 5).2 = true ∧
      cacheGet (rate_limit_check emptyCache "a" 5).1 "a" =
        (cacheGet emptyCache "a").filter
          (fun t => 5 - t < RATE_LIMIT_WINDOW) ++ [5]) ∧
    ((rate_limit_check (cacheSet emptyCache "b" (List.replicate 1000 0))
        "b" 5).2 = false ∧
      cacheGet (rate_limit_check (cacheSet emptyCache "b"
          (List.replicate 1000 0)) "b" 5).1 "b" =
        (cacheGet (cacheSet emptyCache "b" (List.replicate 1000 0))
          "b").filter (fun t => 5 - t < RATE_LIMIT_WINDOW)) :=
  ⟨(c2_rate_limit_check_spec emptyCache "a" 5).2 (by decide),
   (c2_rate_limit_check_spec (cacheSet emptyCache "b"
      (List.replicate 1000 0)) "b" 5).1 (by decide)⟩

/-- C9: every `rate_limit_check` call, accepted or rejected, writes the
pruned window back under the client key: afterwards the key is present in
the table, every timestamp it holds is within `RATE_LIMIT_WINDOW` of `now`,
and the stats snapshot counts the client among `active_clients`.
Timestamps are assumed not to lie in the future of `now`, as produced by a
monotone clock. -/
theorem active_clients_pos (c : RequestCache) (k : String) (h : k ∈ c.keys) :
    1 ≤ (get_weather_stats c).active_clients := by
  have := List.length_pos.mpr (List.ne_nil_of_mem h)
  simpa [get_weather_stats] using this

theorem c9_pruned_writeback (c : RequestCache) (ip : String) (now : Int)
    (hpast : ∀ t ∈ cacheGet c ip, t ≤ now) :
    ip ∈ ((rate_limit_check c ip now).1).keys ∧
    (∀ t ∈ cacheGet (rate_limit_check c ip now).1 ip,
        now - t < RATE_LIMIT_WINDOW ∧ t ≤ now) ∧
    1 ≤ (get_weather_stats (rate_limit_check c ip now).1).active_clients := by
  simp only [rate_limit_check_eq]
  by_cases h : RATE_LIMIT_MAX ≤
      ((cacheGet c ip).filter (fun t => now - t < RATE_LIMIT_WINDOW)).length
  · rw [if_pos h]
    refine ⟨mem_keys_cacheSet c ip _, ?_,
      active_clients_pos _ ip (mem_keys_cacheSet c ip _)⟩
    rw [cacheGet_cacheSet_self]
    intro t ht
    rw [List.mem_filter] at ht
    exact ⟨by simpa using ht.2, hpast t ht.1⟩
  · rw [if_neg h]
    refine ⟨mem_keys_cacheSet _ ip _, ?_,
      active_clients_pos _ ip (mem_keys_cacheSet _ ip _)⟩
    rw [cacheGet_cacheSet_self]
    intro t ht
    rcases List.mem_append.mp ht with hl | hr
    · rw [List.mem_filter] at hl
      exact ⟨by simpa using hl.2, hpast t hl.1⟩
    · have : t = now := by simpa using hr
      subst this
      exact ⟨by simp [RATE_LIMIT_WINDOW], le_refl t⟩

/-- As long as all timestamps (recorded and incoming) lie within one
rate-limit window of each other and the total count stays within
`RATE_LIMIT_MAX`, every call in a sequence of `rate_limit_check`s is
accepted and the client's window accumulates exactly the incoming
timestamps. -/
theorem runChecks_window (ts : List Int) (c : RequestCache) (ip : String)
    (hlen : (cacheGet c ip).length + ts.length ≤ RATE_LIMIT_MAX)
    (hpair : ∀ a ∈ cacheGet c ip ++ ts, ∀ b ∈ cacheGet c ip ++ ts,
        a - b < RATE_LIMIT_WINDOW) :
    cacheGet (runChecks c ip ts).1 ip = cacheGet c ip ++ ts ∧
    ∀ r ∈ (runChecks c ip ts).2, r = true := by
  induction ts generalizing c with
  | nil => simp [runChecks]
  | cons t rest ih =>
    have htmem : t ∈ cacheGet c ip ++ t :: rest :=
      List.mem_append_right _ (List.mem_cons_self t rest)
    have hfilter : (cacheGet c ip).filter
        (fun x => t - x < RATE_LIMIT_WINDOW) = cacheGet c ip := by
      apply List.filter_eq_self.mpr
      intro a ha
      simpa using hpair t htmem a (List.mem_append_left _ ha)
    have hres : rate_limit_check c ip t =
        (cacheSet (cacheSet c ip (cacheGet c ip)) ip (cacheGet c ip ++ [t]),
          true) := by
      rw [rate_limit_check_eq]
      simp only [hfilter]
      rw [if_neg (by simp at hlen; omega)]
    have hget' : cacheGet
        (cacheSet (cacheSet c ip (cacheGet c ip)) ip (cacheGet c ip ++ [t])) ip
        = cacheGet c ip ++ [t] := cacheGet_cacheSet_self ..
    have hlen' : (cacheGet
        (cacheSet (cacheSet c ip (cacheGet c ip)) ip (cacheGet c ip ++ [t]))
          ip).length + rest.length ≤ RATE_LIMIT_MAX := by
      rw [hget']
      simp only [List.length_append, List.length_singleton]
      simp at hlen
      omega
    have hpair' : ∀ a ∈ cacheGet
        (cacheSet (cacheSet c ip (cacheGet c ip)) ip (cacheGet c ip ++ [t]))
          ip ++ rest,
        ∀ b ∈ cacheGet
        (cacheSet (cacheSet c ip (cacheGet c ip)) ip (cacheGet c ip ++ [t]))
          ip ++ rest, a - b < RATE_LIMIT_WINDOW := by
      rw [hget', List.append_assoc]
      exact hpair
    obtain ⟨h1, h2⟩ := ih _ hlen' hpair'
    constructor
    · simp only [runChecks, hres]
      rw [h1, hget', List.append_assoc]
      rfl
    · simp only [runChecks, hres]
      intro r hr
      rcases List.mem_cons.mp hr with h | h
      · exact h
      · exact h2 r h

/-- C3: starting from a client with no recorded history, any sequence of
`N ≤ RATE_LIMIT_MAX` requests is accepted in full, and when `N` equals
`RATE_LIMIT_MAX` (all timestamps lying within one rate-limit window of
each other) the next request from the same client in that window is
rejected by `proxy_noaa_weather` with status 429 and a body containing
"Rate limit exceeded". -/
theorem c3_sliding_window_429 (c0 : RequestCache) (ip path : String)
    (ts : List Int) (tN : Int) (o : RequestsOutcome)
    (hfresh : cacheGet c0 ip = [])
    (hwin : ∀ a ∈ ts ++ [tN], ∀ b ∈ ts ++ [tN], a - b < RATE_LIMIT_WINDOW) :
    (ts.length ≤ RATE_LIMIT_MAX → ∀ r ∈ (runChecks c0 ip ts).2, r = true) ∧
    (ts.length = RATE_LIMIT_MAX →
      (proxy_noaa_weather_main (runChecks c0 ip ts).1 path ip tN o).2.status
        = 429 ∧
      strContains
        (proxy_noaa_weather_main (runChecks c0 ip ts).1 path ip tN o).2.content
        "Rate limit exceeded" = true) := by
  have hpair : ∀ a ∈ cacheGet c0 ip ++ ts, ∀ b ∈ cacheGet c0 ip ++ ts,
      a - b < RATE_LIMIT_WINDOW := by
    rw [hfresh]
    simp only [List.nil_append]
    intro a ha b hb
    exact hwin a (List.mem_append_left _ ha) b (List.mem_append_left _ hb)
  constructor
  · intro hle
    have hlen : (cacheGet c0 ip).length + ts.length ≤ RATE_LIMIT_MAX := by
      rw [hfresh]
      simpa using hle
    exact (runChecks_window ts c0 ip hlen hpair).2
  · intro heq
    have hlen : (cacheGet c0 ip).length + ts.length ≤ RATE_LIMIT_MAX := by
      rw [hfresh]
      simpa using heq.le
    have hwindow : cacheGet (runChecks c0 ip ts).1 ip = ts := by
      have := (runChecks_window ts c0 ip hlen hpair).1
      rw [hfresh] at this
      simpa using this
    have hfilter : ts.filter (fun x => tN - x < RATE_LIMIT_WINDOW) = ts := by
      apply List.filter_eq_self.mpr
      intro a ha
      have htn : tN ∈ ts ++ [tN] :=
        List.mem_append_right _ (List.mem_singleton_self tN)
      simpa using hwin tN htn a (List.mem_append_left _ ha)
    have hres : (rate_limit_check (runChecks c0 ip ts).1 ip tN).2 = false := by
      rw [rate_limit_check_eq]
      simp only [hwindow, hfilter]
      rw [if_pos (by omega)]
    simp only [proxy_noaa_weather_main, hres, if_true]
    exact ⟨by trivial, by decide⟩

/-- C3 (witness): 1000 requests at time 0 from a fresh client all pass; the
1001st in the same window is answered 429 "Rate limit exceeded". -/
theorem c3_sliding_window_429_witness :
    (proxy_noaa_weather_main
        (runChecks emptyCache "c" (List.replicate 1000 0)).1
        "x" "c" 0 RequestsOutcome.timeout).2.status = 429 ∧
    strContains
      (proxy_noaa_weather_main
        (runChecks emptyCache "c" (List.replicate 1000 0)).1
        "x" "c" 0 RequestsOutcome.timeout).2.content
      "Rate limit exceeded" = true :=
  (c3_sliding_window_429 emptyCache "c" "x" (List.replicate 1000 0) 0
      RequestsOutcome.timeout rfl
      (by
        intro a ha b hb
        have ha0 : a = 0 := by
          rcases List.mem_append.mp ha with h | h
          · exact List.eq_of_mem_replicate h
          · simpa using h
        have hb0 : b = 0 := by
          rcases List.mem_append.mp hb with h | h
          · exact List.eq_of_mem_replicate h
          · simpa using h
        rw [ha0, hb0]
        decide)).2
    (by rw [List.length_replicate, RATE_LIMIT_MAX])

/-- C9 (witness): a client with one recorded timestamp `0` checked at time
`5` stays present, all entries within the window, and counted in the
stats. -/
theorem c9_pruned_writeback_witness :
    "c" ∈ ((rate_limit_check (cacheSet emptyCache "c" [0]) "c" 5).1).keys ∧
    (∀ t ∈ cacheGet (rate_limit_check (cacheSet emptyCache "c" [0]) "c" 5).1 "c",
        5 - t < RATE_LIMIT_WINDOW ∧ t ≤ 5) ∧
    1 ≤ (get_weather_stats
          (rate_limit_check (cacheSet emptyCache "c" [0]) "c" 5).1).active_clients :=
  c9_pruned_writeback (cacheSet emptyCache "c" [0]) "c" 5 (by decide)

/-- C4: `make_proxy_request` classifies each outbound outcome into exactly
one of three cases: a timeout becomes status 408 with a JSON body
containing "Request timeout"; any other request exception becomes status
500 with the exception message embedded in the JSON body; a response
received within the timeout is returned as a success with the upstream
status code, body and headers, whatever the status code. -/
theorem c4_forwarder_classification (url : String) :
    ((make_proxy_request url RequestsOutcome.timeout).status = 408 ∧
      strContains (make_proxy_request url RequestsOutcome.timeout).content
        "Request timeout" = true ∧
      headerGet (make_proxy_request url RequestsOutcome.timeout).headers
        "Content-Type" = some "application/json" ∧
      (make_proxy_request url RequestsOutcome.timeout).success = false) ∧
    (∀ m : String,
      (make_proxy_request url (RequestsOutcome.requestError m)).status = 500 ∧
      (make_proxy_request url (RequestsOutcome.requestError m)).content =
        "\x7b\"error\": \"" ++ m ++ "\", \"service\": \"weather\"\x7d" ∧
      (make_proxy_request url (RequestsOutcome.requestError m)).success
        = false) ∧
    (∀ (s : Nat) (t : String) (hs : List (String × String)),
      make_proxy_request url (RequestsOutcome.ok s t hs) =
        ⟨s, t, hs, true⟩) := by
  refine ⟨⟨rfl, by simp only [make_proxy_request]; decide, rfl, rfl⟩,
    fun m => ⟨rfl, rfl, rfl⟩, fun s t hs => rfl⟩

/-- C5 (counterexample): in `server_code_fixed.py`, when the upstream
answers the NOAA endpoint with a 404 response, the external caller receives
status 200, not the upstream's own 404 — only the body passes through. -/
theorem c5_fixed_status_counterexample :
    ((proxy_noaa_weather_fixed [("path", "x")]
        (AnvilOutcome.delivered 404 "Not Found")).1).status = 200 ∧
    ((proxy_noaa_weather_fixed [("path", "x")]
        (AnvilOutcome.delivered 404 "Not Found")).1).body = "Not Found" ∧
    (200 : Nat) ≠ 404 := by
  decide

/-- C5 (amended): in the `main.py`/`client_code.py` chain a success outcome
is delivered verbatim — the `ProxyResult` and the client `HttpResponse`
carry the upstream status (4xx/5xx included) and body unmodified — while
the `server_code_fixed.py` endpoints deliver the upstream body under a
constant status 200. -/
theorem c5_success_passthrough (c : RequestCache) (path ip : String)
    (now : Int) (s : Nat) (t b : String) (hs : List (String × String))
    (kwargs : List (String × String))
    (hacc : (rate_limit_check c ip now).2 = true)
    (hk : ¬ getParam kwargs "path" = "") :
    ((proxy_noaa_weather_main c path ip now
        (RequestsOutcome.ok s t hs)).2).status = s ∧
    ((proxy_noaa_weather_main c path ip now
        (RequestsOutcome.ok s t hs)).2).content = t ∧
    (noaa_proxy_endpoint_deliver
        (proxy_noaa_weather_main c path ip now
          (RequestsOutcome.ok s t hs)).2).status = s ∧
    (noaa_proxy_endpoint_deliver
        (proxy_noaa_weather_main c path ip now
          (RequestsOutcome.ok s t hs)).2).body = t ∧
    ((proxy_noaa_weather_fixed kwargs
        (AnvilOutcome.delivered s b)).1).status = 200 ∧
    ((proxy_noaa_weather_fixed kwargs
        (AnvilOutcome.delivered s b)).1).body = b := by
  have hcond : (((rate_limit_check c ip now).2 = false) = False) := by
    simp [hacc]
  simp [proxy_noaa_weather_main, hcond, make_proxy_request,
    noaa_proxy_endpoint_deliver, proxy_noaa_weather_fixed, hk]

/-- C5 (witness): a fresh client forwarding to an upstream that answers
404 "nf": the main-chain result carries 404 and "nf", the fixed endpoint
answers 200. -/
theorem c5_success_passthrough_witness :
    (rate_limit_check emptyCache "i" 0).2 = true ∧
    (((proxy_noaa_weather_main emptyCache "p" "i" 0
        (RequestsOutcome.ok 404 "nf" [])).2).status = 404 ∧
      ((proxy_noaa_weather_main emptyCache "p" "i" 0
        (RequestsOutcome.ok 404 "nf" [])).2).content = "nf" ∧
      (noaa_proxy_endpoint_deliver
        (proxy_noaa_weather_main emptyCache "p" "i" 0
          (RequestsOutcome.ok 404 "nf" [])).2).status = 404 ∧
      (noaa_proxy_endpoint_deliver
        (proxy_noaa_weather_main emptyCache "p" "i" 0
          (RequestsOutcome.ok 404 "nf" [])).2).body = "nf" ∧
      ((proxy_noaa_weather_fixed [("path", "x")]
        (AnvilOutcome.delivered 404 "nf")).1).status = 200 ∧
      ((proxy_noaa_weather_fixed [("path", "x")]
        (AnvilOutcome.delivered 404 "nf")).1).body = "nf") :=
  ⟨by decide,
    c5_success_passthrough emptyCache "p" "i" 0 404 "nf" "nf" []
      [("path", "x")] (by decide) (by decide)⟩

/-- C1 (counterexample): the `server_code_fixed.py` NOAA endpoint answers a
request without a `path` parameter with a bare 400 response that carries no
`Access-Control-Allow-Origin` header. -/
theorem c1_missing_cors_counterexample :
    ((proxy_noaa_weather_fixed [] (AnvilOutcome.delivered 200 "ok")).1).status
      = 400 ∧
    hasCORS (proxy_noaa_weather_fixed []
      (AnvilOutcome.delivered 200 "ok")).1 = false := by
  decide

/-- C1 (amended): the success responses of the `server_code_fixed.py` NOAA
endpoint carry `Access-Control-Allow-Origin`, and the `client_code.py`
endpoint attaches it to everything it delivers for a returned server-call
result (whatever that result's status); but the fixed endpoint's 400
missing-path response and 500 exception response, and the `client_code.py`
endpoint's own 500 exception response, carry no CORS header at all. -/
theorem c1_cors_coverage (kwargs : List (String × String)) (s : Nat)
    (b msg emsg : String) (r : ProxyResult) :
    (¬ getParam kwargs "path" = "" →
      hasCORS (proxy_noaa_weather_fixed kwargs
        (AnvilOutcome.delivered s b)).1 = true) ∧
    (getParam kwargs "path" = "" →
      hasCORS (proxy_noaa_weather_fixed kwargs
        (AnvilOutcome.delivered s b)).1 = false) ∧
    hasCORS (proxy_noaa_weather_fixed kwargs
      (AnvilOutcome.raised msg)).1 = false ∧
    hasCORS (noaa_proxy_endpoint (ServerCallOutcome.returned r)) = true ∧
    hasCORS (noaa_proxy_endpoint (ServerCallOutcome.raised emsg))
      = false := by
  refine ⟨?_, ?_, ?_, rfl, rfl⟩
  · intro hk
    simp only [proxy_noaa_weather_fixed, if_neg hk]
    rfl
  · intro hk
    simp only [proxy_noaa_weather_fixed, if_pos hk]
    rfl
  · by_cases hk : getParam kwargs "path" = ""
    · simp only [proxy_noaa_weather_fixed, if_pos hk]
      rfl
    · simp only [proxy_noaa_weather_fixed, if_neg hk]
      rfl

/-- C1 (witness): at a request with a path the success response has CORS,
at one without it the 400 response does not; the fixed endpoint's
exception response does not; the client-side endpoint attaches CORS to a
returned result but not to its own exception response. -/
theorem c1_cors_coverage_witness :
    hasCORS (proxy_noaa_weather_fixed [("path", "x")]
      (AnvilOutcome.delivered 200 "ok")).1 = true ∧
    hasCORS (proxy_noaa_weather_fixed []
      (AnvilOutcome.delivered 200 "ok")).1 = false ∧
    hasCORS (proxy_noaa_weather_fixed [("path", "x")]
      (AnvilOutcome.raised "boom")).1 = false ∧
    hasCORS (noaa_proxy_endpoint
      (ServerCallOutcome.returned ⟨200, "ok", [], true⟩)) = true ∧
    hasCORS (noaa_proxy_endpoint
      (ServerCallOutcome.raised "boom")) = false :=
  ⟨(c1_cors_coverage [("path", "x")] 200 "ok" "boom" "boom"
      ⟨200, "ok", [], true⟩).1 (by decide),
   (c1_cors_coverage [] 200 "ok" "boom" "boom"
      ⟨200, "ok", [], true⟩).2.1 (by decide),
   (c1_cors_coverage [("path", "x")] 200 "ok" "boom" "boom"
      ⟨200, "ok", [], true⟩).2.2.1,
   (c1_cors_coverage [("path", "x")] 200 "ok" "boom" "boom"
      ⟨200, "ok", [], true⟩).2.2.2.1,
   (c1_cors_coverage [("path", "x")] 200 "ok" "boom" "boom"
      ⟨200, "ok", [], true⟩).2.2.2.2⟩

/-- The outbound-URL construction as the spec words it (§4.3): origin plus
suffix-or-remainder, then every inbound query parameter except the `path`
key appended as `key=value`, joined with `&`, prefixed with `?` when the
URL so far has no query string and `&` otherwise.  Stated from the spec's
words, to be compared with the handlers' URL construction. -/
def specForwardedUrl (origin suffixOrRemainder : String)
    (params : List (String × String)) : String :=
  let keep := params.filter (fun kv => ¬ kv.1 = "path")
  let u := origin ++ suffixOrRemainder
  if keep = [] then u
  else u ++ (if strContains u "?" then "&" else "?") ++
    "&".intercalate (keep.map (fun kv => kv.1 ++ "=" ++ kv.2))

theorem appendQuery_eq_spec (origin suffixOrRemainder : String)
    (params : List (String × String)) :
    appendQueryParams (origin ++ suffixOrRemainder)
      (queryPairsNoPath params) =
      specForwardedUrl origin suffixOrRemainder params := by
  unfold appendQueryParams specForwardedUrl queryPairsNoPath
  by_cases h : params.filter (fun kv => ¬ kv.1 = "path") = []
  · rw [h]
    simp
  · rw [if_neg (by simpa using h), if_neg h]

/-- C6 (counterexample): in `server_code_fixed.py` the lightning route
forwards the `path` parameter itself upstream (`?path=p` appears in the
outbound URL) and the buoy route forwards no query parameter at all (the
inbound `a=b` is absent from its outbound URL). -/
theorem c6_query_forwarding_counterexample :
    (proxy_lightning_weather_fixed [("path", "p")]
        (AnvilOutcome.delivered 200 "x")).2 =
      some "https://nowcoast.noaa.gov/geoserver/observations/lightning_detection/ows?path=p" ∧
    strContains
      "https://nowcoast.noaa.gov/geoserver/observations/lightning_detection/ows?path=p"
      "path=p" = true ∧
    (proxy_buoy_weather_fixed [("path", "x"), ("a", "b")]
        (AnvilOutcome.delivered 200 "y")).2 =
      some "https://www.ndbc.noaa.gov/x" ∧
    strContains "https://www.ndbc.noaa.gov/x" "a=b" = false := by
  decide

/-- C6 (amended): in `server_code_fixed.py` the NOAA and aviation routes
build their outbound URL exactly as the spec says — every inbound query
parameter except the `path` key appended as `key=value` joined with `&`,
behind `?` or `&` — but the buoy route appends no query parameters at all
and the lightning route appends every parameter including `path`. -/
theorem c6_query_forwarding (kwargs : List (String × String))
    (net : AnvilOutcome) (hk : ¬ getParam kwargs "path" = "") :
    (proxy_noaa_weather_fixed kwargs net).2 =
      some (specForwardedUrl "https://nowcoast.noaa.gov"
        (normalizeServicePath (getParam kwargs "path")) kwargs) ∧
    (proxy_aviation_weather_fixed kwargs net).2 =
      some (specForwardedUrl "https://aviationweather.gov"
        (normalizeServicePath (getParam kwargs "path")) kwargs) ∧
    (proxy_buoy_weather_fixed kwargs net).2 =
      some ("https://www.ndbc.noaa.gov" ++
        normalizeServicePath (getParam kwargs "path")) ∧
    (proxy_lightning_weather_fixed kwargs net).2 =
      some (lightningFixedUrl kwargs) := by
  refine ⟨?_, ?_, ?_, ?_⟩
  · cases net with
    | delivered s b =>
        simp only [proxy_noaa_weather_fixed, if_neg hk]
        rw [appendQuery_eq_spec]
    | raised m =>
        simp only [proxy_noaa_weather_fixed, if_neg hk]
        rw [appendQuery_eq_spec]
  · cases net with
    | delivered s b =>
        simp only [proxy_aviation_weather_fixed, if_neg hk]
        rw [appendQuery_eq_spec]
    | raised m =>
        simp only [proxy_aviation_weather_fixed, if_neg hk]
        rw [appendQuery_eq_spec]
  · cases net with
    | delivered s b => simp only [proxy_buoy_weather_fixed, if_neg hk]
    | raised m => simp only [proxy_buoy_weather_fixed, if_neg hk]
  · cases net with
    | delivered s b => simp only [proxy_lightning_weather_fixed]
    | raised m => simp only [proxy_lightning_weather_fixed]

/-- C6 (witness): a NOAA request with `path=radar` and `size=2` forwards to
the spec-constructed URL `https://nowcoast.noaa.gov/radar?size=2`;
the buoy and lightning divergences evaluated at the same parameters. -/
theorem c6_query_forwarding_witness :
    (proxy_noaa_weather_fixed [("path", "radar"), ("size", "2")]
        (AnvilOutcome.delivered 200 "ok")).2 =
      some (specForwardedUrl "https://nowcoast.noaa.gov"
        (normalizeServicePath
          (getParam [("path", "radar"), ("size", "2")] "path"))
        [("path", "radar"), ("size", "2")]) ∧
    (proxy_aviation_weather_fixed [("path", "radar"), ("size", "2")]
        (AnvilOutcome.delivered 200 "ok")).2 =
      some (specForwardedUrl "https://aviationweather.gov"
        (normalizeServicePath
          (getParam [("path", "radar"), ("size", "2")] "path"))
        [("path", "radar"), ("size", "2")]) ∧
    (proxy_buoy_weather_fixed [("path", "radar"), ("size", "2")]
        (AnvilOutcome.delivered 200 "ok")).2 =
      some ("https://www.ndbc.noaa.gov" ++
        normalizeServicePath
          (getParam [("path", "radar"), ("size", "2")] "path")) ∧
    (proxy_lightning_weather_fixed [("path", "radar"), ("size", "2")]
        (AnvilOutcome.delivered 200 "ok")).2 =
      some (lightningFixedUrl [("path", "radar"), ("size", "2")]) :=
  c6_query_forwarding [("path", "radar"), ("size", "2")]
    (AnvilOutcome.delivered 200 "ok") (by decide)

/-- C7 (counterexample): the lightning handler of `server_code_correct.py`
rejects a request carrying `service=WMS&request=GetCapabilities` but no
`path` parameter with a 400 "Missing 'path' parameter" response, making no
outbound request. -/
theorem c7_correct_lightning_rejects_counterexample :
    ((proxy_lightning_weather_correct
        [("service", "WMS"), ("request", "GetCapabilities")]
        (AnvilOutcome.delivered 200 "caps")).1).status = 400 ∧
    ((proxy_lightning_weather_correct
        [("service", "WMS"), ("request", "GetCapabilities")]
        (AnvilOutcome.delivered 200 "caps")).1).body =
      "Missing 'path' parameter" ∧
    (proxy_lightning_weather_correct
        [("service", "WMS"), ("request", "GetCapabilities")]
        (AnvilOutcome.delivered 200 "caps")).2 = none := by
  decide

/-- C7 (amended): the `server_code_fixed.py` lightning handler never
requires a `path` parameter: any request is forwarded to the constant
lightning suffix URL with the inbound query parameters attached, and when
the built URL contains no `getmap` (lower-cased) the returned content type
is `application/xml`; the `server_code_correct.py` lightning handler,
however, rejects a missing `path` with a 400 before forwarding. -/
theorem c7_lightning_no_path_required (qs : List (String × String))
    (s : Nat) (b : String)
    (hng : strContains (strLower (lightningFixedUrl qs)) "getmap" = false) :
    ((proxy_lightning_weather_fixed qs
        (AnvilOutcome.delivered s b)).1).status = 200 ∧
    (proxy_lightning_weather_fixed qs (AnvilOutcome.delivered s b)).2 =
      some (lightningFixedUrl qs) ∧
    headerGet ((proxy_lightning_weather_fixed qs
        (AnvilOutcome.delivered s b)).1).headers "Content-Type" =
      some "application/xml" := by
  simp only [proxy_lightning_weather_fixed, hng]
  refine ⟨by trivial, by trivial, ?_⟩
  rfl

/-- C7 (witness): the WMS GetCapabilities request without a path, forwarded
by the fixed lightning handler with content type `application/xml`. -/
theorem c7_lightning_no_path_required_witness :
    ((proxy_lightning_weather_fixed
        [("service", "WMS"), ("request", "GetCapabilities")]
        (AnvilOutcome.delivered 200 "caps")).1).status = 200 ∧
    (proxy_lightning_weather_fixed
        [("service", "WMS"), ("request", "GetCapabilities")]
        (AnvilOutcome.delivered 200 "caps")).2 =
      some (lightningFixedUrl
        [("service", "WMS"), ("request", "GetCapabilities")]) ∧
    headerGet ((proxy_lightning_weather_fixed
        [("service", "WMS"), ("request", "GetCapabilities")]
        (AnvilOutcome.delivered 200 "caps")).1).headers "Content-Type" =
      some "application/xml" :=
  c7_lightning_no_path_required
    [("service", "WMS"), ("request", "GetCapabilities")] 200 "caps"
    (by decide)

/-- Prepending a slash to a string that lacks one commutes with the
handlers' normalization: `normalizeServicePath p = normalizeServicePath
("/" ++ p)`. -/
theorem normalizeServicePath_slash (p : String)
    (hns : strStartsWith p "/" = false) :
    normalizeServicePath p = normalizeServicePath ("/" ++ p) := by
  have hyes : strStartsWith ("/" ++ p) "/" = true := by
    simp [strStartsWith, String.toList, String.data_append, List.isPrefixOf]
  unfold normalizeServicePath
  rw [hns, hyes]
  simp

theorem slash_append_ne_empty (p : String) : ¬ ("/" ++ p) = "" := by
  intro h
  have := congrArg String.toList h
  simp [String.toList, String.data_append] at this

/-- C10 (counterexample): for the empty remainder path — which does not
start with `/` — the NOAA handler of `server_code_fixed.py` answers 400 and
requests no outbound URL, while the input `"/" ++ "" = "/"` is forwarded to
`https://nowcoast.noaa.gov/`; the two inputs do not produce identical
outbound URLs. -/
theorem c10_empty_path_counterexample :
    strStartsWith "" "/" = false ∧
    ((proxy_noaa_weather_fixed [("path", "")]
        (AnvilOutcome.delivered 200 "x")).1).status = 400 ∧
    (proxy_noaa_weather_fixed [("path", "")]
        (AnvilOutcome.delivered 200 "x")).2 = none ∧
    (proxy_noaa_weather_fixed [("path", "/")]
        (AnvilOutcome.delivered 200 "x")).2 =
      some "https://nowcoast.noaa.gov/" ∧
    (proxy_noaa_weather_fixed [("path", "")]
        (AnvilOutcome.delivered 200 "x")).2 ≠
      (proxy_noaa_weather_fixed [("path", "/")]
        (AnvilOutcome.delivered 200 "x")).2 := by
  decide

/-- C10 (amended): for the NOAA (marine/radar), aviation and buoy routes of
`server_code_fixed.py`, any NON-EMPTY remainder path not starting with `/`
is normalized by prepending one, so the inputs `p` and `"/" ++ p` produce
the identical outbound upstream URL. -/
theorem c10_slash_normalization (p : String) (qs : List (String × String))
    (net : AnvilOutcome) (hne : ¬ p = "")
    (hns : strStartsWith p "/" = false) :
    (proxy_noaa_weather_fixed (("path", p) :: qs) net).2 =
      (proxy_noaa_weather_fixed (("path", "/" ++ p) :: qs) net).2 ∧
    (proxy_aviation_weather_fixed (("path", p) :: qs) net).2 =
      (proxy_aviation_weather_fixed (("path", "/" ++ p) :: qs) net).2 ∧
    (proxy_buoy_weather_fixed (("path", p) :: qs) net).2 =
      (proxy_buoy_weather_fixed (("path", "/" ++ p) :: qs) net).2 := by
  have hget1 : getParam (("path", p) :: qs) "path" = p := rfl
  have hget2 : getParam (("path", "/" ++ p) :: qs) "path" = "/" ++ p := rfl
  have hqp : queryPairsNoPath (("path", p) :: qs) =
      queryPairsNoPath (("path", "/" ++ p) :: qs) := rfl
  have hnorm := normalizeServicePath_slash p hns
  refine ⟨?_, ?_, ?_⟩
  · cases net with
    | delivered s b =>
        simp only [proxy_noaa_weather_fixed, hget1, hget2, if_neg hne,
          if_neg (slash_append_ne_empty p), hqp, hnorm]
    | raised m =>
        simp only [proxy_noaa_weather_fixed, hget1, hget2, if_neg hne,
          if_neg (slash_append_ne_empty p), hqp, hnorm]
  · cases net with
    | delivered s b =>
        simp only [proxy_aviation_weather_fixed, hget1, hget2, if_neg hne,
          if_neg (slash_append_ne_empty p), hqp, hnorm]
    | raised m =>
        simp only [proxy_aviation_weather_fixed, hget1, hget2, if_neg hne,
          if_neg (slash_append_ne_empty p), hqp, hnorm]
  · cases net with
    | delivered s b =>
        simp only [proxy_buoy_weather_fixed, hget1, hget2, if_neg hne,
          if_neg (slash_append_ne_empty p), hnorm]
    | raised m =>
        simp only [proxy_buoy_weather_fixed, hget1, hget2, if_neg hne,
          if_neg (slash_append_ne_empty p), hnorm]

/-- C10 (witness): the remainder `radar` and `/radar` produce the same
outbound URL on all three path-appending routes. -/
theorem c10_slash_normalization_witness :
    (proxy_noaa_weather_fixed [("path", "radar")]
        (AnvilOutcome.delivered 200 "x")).2 =
      (proxy_noaa_weather_fixed [("path", "/radar")]
        (AnvilOutcome.delivered 200 "x")).2 ∧
    (proxy_aviation_weather_fixed [("path", "radar")]
        (AnvilOutcome.delivered 200 "x")).2 =
      (proxy_aviation_weather_fixed [("path", "/radar")]
        (AnvilOutcome.delivered 200 "x")).2 ∧
    (proxy_buoy_weather_fixed [("path", "radar")]
        (AnvilOutcome.delivered 200 "x")).2 =
      (proxy_buoy_weather_fixed [("path", "/radar")]
        (AnvilOutcome.delivered 200 "x")).2 :=
  c10_slash_normalization "radar" [] (AnvilOutcome.delivered 200 "x")
    (by decide) (by decide)

end WeatherProxy
